import Mathlib

/-!
# Verification of the interview-simulator session core

A shallow embedding of `src/app.py` (a Streamlit interview simulator):
the session state dictionary, the stop-control operations, the turn-budget
gates, the manual streaming loop with cooperative cancellation, the
feedback screen, and the phase logic, together with a small-step relation
describing how one session evolves across script passes.

Conventions:
- Python `st.session_state` becomes the structure `SessionState`; each
  mutation site in the source becomes a function `SessionState → SessionState`
  (plus emitted UI notices where a claim refers to them).
- The OpenAI streamed chunks become `List (Option String)`: each element is
  the `chunk.choices[0].delta.content` payload (`none` for chunks without a
  text payload, mirroring the `except` fallback at lines 253-256).
- The session-wide `stop_requested` flag, as observed by the streaming loop,
  is a trajectory `stopF : Nat → Bool`: `stopF k` is the flag value observed
  at the poll that happens once `k` fragments have been consumed.
-/

/-- A chat message, mirroring the `{"role": ..., "content": ...}` dictionaries. -/
structure Message where
  role : String
  content : String
deriving DecidableEq

/-- The session state, mirroring the `defaults` dictionary (lines 66-83). -/
structure SessionState where
  setup_complete : Bool
  user_message_count : Nat
  feedback_shown : Bool
  chat_complete : Bool
  messages : List Message
  name : String
  experience : String
  skills : String
  level : String
  position : String
  company : String
  openai_model : String
  stop_requested : Bool
  stopped_early : Bool
deriving DecidableEq

/-- The default session state (lines 66-86). -/
def initialState : SessionState :=
  { setup_complete := false
    user_message_count := 0
    feedback_shown := false
    chat_complete := false
    messages := []
    name := ""
    experience := ""
    skills := ""
    level := "Junior"
    position := "Data Scientist"
    company := "Amazon"
    openai_model := "gpt-4.1-mini"
    stop_requested := false
    stopped_early := false }

/-- `complete_setup` callback (lines 89-91). -/
def complete_setup (s : SessionState) : SessionState :=
  { s with setup_complete := true }

/-- `show_feedback` callback (lines 94-96). -/
def show_feedback (s : SessionState) : SessionState :=
  { s with feedback_shown := true }

/-- `request_stop` callback (lines 99-104): set `stop_requested`, flag
`stopped_early` when no user message has been accepted yet, end the chat. -/
def request_stop (s : SessionState) : SessionState :=
  { s with
    stop_requested := true
    stopped_early := if s.user_message_count == 0 then true else s.stopped_early
    chat_complete := true }

/-- The ESC-key signal handler body (lines 219-223), translated on its own so
it can be compared with `request_stop`. -/
def escStop (s : SessionState) : SessionState :=
  { s with
    stop_requested := true
    stopped_early := if s.user_message_count == 0 then true else s.stopped_early
    chat_complete := true }

/-- Turn-budget: the count conjunct of the input gate (line 228). -/
def acceptsInput (n : Nat) : Bool :=
  decide (n < 5)

/-- Turn-budget: the reply gate (line 235). -/
def generatesReply (n : Nat) : Bool :=
  decide (n < 4)

/-- The guard of the interview block (line 163). -/
def interviewing (s : SessionState) : Bool :=
  s.setup_complete && !s.feedback_shown && !s.chat_complete

/-- The full input gate (line 228). -/
def inputGate (s : SessionState) : Bool :=
  decide (s.user_message_count < 5) && !s.stop_requested

/-- The Get-Feedback eligibility condition (lines 282-287). -/
def feedbackEligible (s : SessionState) : Bool :=
  s.chat_complete && !s.feedback_shown && !s.stopped_early &&
    decide (0 < s.user_message_count)

/-- The phases of the spec state machine. -/
inductive Phase where
  | Setup
  | Interviewing
  | StoppedEarly
  | Completed
  | FeedbackShown
deriving DecidableEq

/-- The phase determined by the screen-gating conditions of the script
(lines 108, 163, 282-287, 291-295, 301). -/
def phase (s : SessionState) : Phase :=
  if !s.setup_complete then Phase.Setup
  else if s.feedback_shown then Phase.FeedbackShown
  else if !s.chat_complete then Phase.Interviewing
  else if s.stopped_early then Phase.StoppedEarly
  else Phase.Completed

/-- Result of one run of the manual streaming loop (lines 245-266):
the accumulated `full_response`, the value of the stop flag read after the
loop (line 264), the number of fragments actually pulled from the stream,
and whether the loop ran the stream to exhaustion (no early `break`). -/
structure StreamRun where
  full_response : String
  wasAborted : Bool
  pulled : Nat
  exhausted : Bool
deriving DecidableEq

/-- The streaming loop body (lines 247-259): `for chunk in stream` first
pulls the next chunk, then checks `st.session_state.stop_requested` and
breaks, otherwise appends the text payload (skipping empty/absent payloads,
line 257) and continues.  `k` counts fragments consumed so far; on exhaustion
the post-loop flag read (line 264) observes `stopF k`. -/
def assembleGo (stopF : Nat → Bool) : List (Option String) → Nat → String → StreamRun
  | [], k, acc => ⟨acc, stopF k, k, true⟩
  | chunk :: rest, k, acc =>
    if stopF k then ⟨acc, true, k + 1, false⟩
    else
      match chunk with
      | some delta =>
        if delta == "" then assembleGo stopF rest (k + 1) acc
        else assembleGo stopF rest (k + 1) (acc ++ delta)
      | none => assembleGo stopF rest (k + 1) acc

/-- The Streaming Response Assembler as the source implements it. -/
def assemble (chunks : List (Option String)) (stopF : Nat → Bool) : StreamRun :=
  assembleGo stopF chunks 0 ""

/-- Modelled from the spec: the assembler as §4.3 words it — the stop
predicate is polled BEFORE each pull, so a true predicate stops consumption
without pulling any further fragment.  Kept separate from the
source-derived `assemble` so the two can be compared. -/
def assembleSpecGo (stopF : Nat → Bool) : List (Option String) → Nat → String → StreamRun
  | [], k, acc => ⟨acc, stopF k, k, true⟩
  | chunk :: rest, k, acc =>
    if stopF k then ⟨acc, true, k, false⟩
    else
      match chunk with
      | some delta =>
        if delta == "" then assembleSpecGo stopF rest (k + 1) acc
        else assembleSpecGo stopF rest (k + 1) (acc ++ delta)
      | none => assembleSpecGo stopF rest (k + 1) acc

/-- Modelled from the spec: top-level check-before-pull assembler. -/
def assembleSpec (chunks : List (Option String)) (stopF : Nat → Bool) : StreamRun :=
  assembleSpecGo stopF chunks 0 ""

/-- User-visible notices emitted on the turn path. -/
inductive Notice where
  | streamFailed
  | responseFailed
  | stoppedByUser
deriving DecidableEq

/-- The external outcome of one reply attempt: either
`client.chat.completions.create` itself raises (line 238), or a stream is
obtained that yields `chunks` before either finishing or raising
(`streamRaises = true` means the source raises after the listed chunks,
caught at lines 260-261); `stopF` is the stop-flag trajectory observed by
the loop's polls. -/
inductive TurnEvent where
  | createFailed
  | streamed (chunks : List (Option String)) (stopF : Nat → Bool) (streamRaises : Bool)

/-- The user message appended at line 230. -/
def userMsg (prompt : String) : Message :=
  { role := "user", content := prompt }

/-- One accepted user turn (lines 229-279): append the user message; for the
first 4 user messages run the reply attempt — on creation failure only an
error notice (lines 271-272), otherwise the streaming loop, whose abort
implies the stop trigger's callback mutation has occurred (the trigger runs
`request_stop`-shaped code with the count not yet incremented) together with
lines 264-266, and the accumulated text is appended as the assistant message
(line 269) — then increment `user_message_count` (lines 274-275) and apply
the end-of-interview check (lines 277-279). -/
def userTurn (s : SessionState) (prompt : String) (ev : TurnEvent) :
    SessionState × List Notice :=
  let s1 := { s with messages := s.messages ++ [userMsg prompt] }
  let p :=
    if s1.user_message_count < 4 then
      match ev with
      | TurnEvent.createFailed => (s1, [Notice.responseFailed])
      | TurnEvent.streamed chunks stopF streamRaises =>
        let r := assemble chunks stopF
        let s2 :=
          if r.wasAborted then
            { s1 with
              stop_requested := true
              stopped_early :=
                if s1.user_message_count == 0 then true else s1.stopped_early
              chat_complete := true }
          else s1
        let s3 := { s2 with messages := s2.messages ++ [⟨"assistant", r.full_response⟩] }
        (s3, (if streamRaises && r.exhausted then [Notice.streamFailed] else []) ++
             (if r.wasAborted then [Notice.stoppedByUser] else []))
    else (s1, ([] : List Notice))
  let s4 := { p.1 with user_message_count := p.1.user_message_count + 1 }
  let s5 :=
    if 5 ≤ s4.user_message_count || s4.stop_requested then
      { s4 with chat_complete := true }
    else s4
  (s5, p.2)

/-- System-message initialization at interview entry (lines 167-178). -/
def initMessages (s : SessionState) : SessionState :=
  if s.messages == [] then
    { s with
      messages :=
        [⟨"system",
          "You are an HR executive that interviews an interviewee called " ++
          s.name ++ " with experience " ++ s.experience ++ " and skills " ++
          s.skills ++ ". You should interview him for the position " ++
          s.level ++ " " ++ s.position ++ " at the company " ++ s.company⟩] }
  else s

/-- Python `"\n".join`. -/
def joinLines : List String → String
  | [] => ""
  | [a] => a
  | a :: b :: rest => a ++ "\n" ++ joinLines (b :: rest)

/-- The transcript rendering used both at lines 310-312 and at line 345. -/
def renderTranscript (msgs : List Message) : String :=
  joinLines (msgs.map (fun m => m.role ++ ": " ++ m.content))

/-- Effects of the feedback screen block. -/
inductive FeedbackEffect where
  | refusedEarlyGuard
  | scoringCall (systemPrompt : String) (userPrompt : String)
  | feedbackError
  | downloadOffered (filename : String) (data : String)
deriving DecidableEq

/-- The scoring-service system prompt (lines 318-327). -/
def feedbackSystemPrompt : String :=
  "You are a helpful tool that provides feedback on an interviewee performance. " ++
  "Before the Feedback give a score of 1 to 10.\n" ++
  "Follow this format:\n" ++
  "Overal Score: //Your score\n" ++
  "Feedback: //Here you put your feedback\n" ++
  "Give only the feedback do not ask any additional questins."

/-- The fixed prefix of the scoring-service user prompt (lines 329-336). -/
def feedbackUserPrefix : String :=
  "This is the interview you need to evaluate. " ++
  "Keep in mind that you are only a tool. " ++
  "And you shouldn\x27t engage in any converstation: "

/-- The feedback screen block (lines 301-351): the early-stop guard stops the
script before any scoring call (lines 302-307); otherwise exactly one scoring
call is issued with the rendered transcript (lines 310-339), a failure is
surfaced as an error notice (lines 341-342), and the transcript download is
offered under the fixed filename (lines 344-351).  The block assigns no
session-state key, so the state is returned unchanged in every case. -/
def feedbackScreen (s : SessionState) (callSucceeds : Bool) :
    SessionState × List FeedbackEffect :=
  if s.stopped_early || s.user_message_count == 0 then
    (s, [FeedbackEffect.refusedEarlyGuard])
  else
    let conversation_history := renderTranscript s.messages
    (s,
      FeedbackEffect.scoringCall feedbackSystemPrompt
          (feedbackUserPrefix ++ conversation_history) ::
        (if callSucceeds then [] else [FeedbackEffect.feedbackError]) ++
        [FeedbackEffect.downloadOffered "interview_transcript.txt"
          (renderTranscript s.messages)])

/-- Whether an effect is a scoring-service call. -/
def isScoringCall : FeedbackEffect → Bool
  | FeedbackEffect.scoringCall _ _ => true
  | _ => false

/-- One observable step of the session, each constructor a mutation site of
the script.  A `turn` step requires the interview-phase guard (line 163), the
input gate (line 228), a non-empty submitted prompt and an initialized
transcript (the interview block runs lines 167-178 before the chat input on
every pass, so an accepted turn always sees a non-empty transcript). -/
inductive Step : SessionState → SessionState → Prop where
  | setup (s : SessionState) :
      s.setup_complete = false → Step s (complete_setup s)
  | enterInterview (s : SessionState) :
      interviewing s = true → Step s (initMessages s)
  | stop (s : SessionState) : Step s (request_stop s)
  | turn (s : SessionState) (prompt : String) (ev : TurnEvent) :
      interviewing s = true → inputGate s = true → prompt ≠ "" →
      s.messages ≠ [] → Step s (userTurn s prompt ev).1
  | getFeedback (s : SessionState) :
      feedbackEligible s = true → Step s (show_feedback s)
  | feedbackRun (s : SessionState) (ok : Bool) :
      s.feedback_shown = true → Step s (feedbackScreen s ok).1

/-- Reachability: zero or more steps. -/
inductive Reach : SessionState → SessionState → Prop where
  | refl (s : SessionState) : Reach s s
  | tail (s t u : SessionState) : Reach s t → Step t u → Reach s u

/-- A turn event during which the stop flag never becomes true. -/
def noStopEvent : TurnEvent → Prop
  | TurnEvent.createFailed => True
  | TurnEvent.streamed _ stopF _ => ∀ k, stopF k = false

/-- Run a list of user turns in order. -/
def runTurns (s : SessionState) : List (String × TurnEvent) → SessionState
  | [] => s
  | (p, ev) :: rest => runTurns (userTurn s p ev).1 rest

/-- Every turn in the list is accepted (interview phase + input gate +
non-empty prompt) at the state where it is submitted. -/
def allAccepted : SessionState → List (String × TurnEvent) → Bool
  | _, [] => true
  | s, (p, ev) :: rest =>
    interviewing s && inputGate s && !(p == "") &&
      allAccepted (userTurn s p ev).1 rest

/-- The 3-fragment example sequence from the spec. -/
def exFrags : List (Option String) := [some "Hel", some "lo ", some "world"]

/-- A stop predicate that becomes true after the 1st fragment is consumed. -/
def exStop : Nat → Bool := fun k => decide (1 ≤ k)

/-- A stop predicate that never fires. -/
def noStopF : Nat → Bool := fun _ => false

/-- The session just after setup submission and interview entry. -/
def st0 : SessionState := initMessages (complete_setup initialState)

/-- A mid-interview session on which stop has been requested (2 turns in). -/
def sStopW : SessionState :=
  { st0 with user_message_count := 2, stop_requested := true }

/-- A completed 1-turn session whose feedback screen is showing. -/
def sFbW : SessionState :=
  { st0 with user_message_count := 1, chat_complete := true, feedback_shown := true }

/-- A session about to submit its 5th user message. -/
def s4W : SessionState := { st0 with user_message_count := 4 }

/-- Five concrete no-stop turns. -/
def turnsW : List (String × TurnEvent) :=
  [("a", TurnEvent.streamed [some "Hi"] noStopF false),
   ("b", TurnEvent.createFailed),
   ("c", TurnEvent.streamed [] noStopF false),
   ("d", TurnEvent.streamed [some "x", none] noStopF true),
   ("e", TurnEvent.streamed [some "y"] noStopF false)]

lemma assembleGo_spec_eqv (stopF : Nat → Bool) :
    ∀ (chunks : List (Option String)) (k : Nat) (acc : String),
      (assembleGo stopF chunks k acc).full_response =
        (assembleSpecGo stopF chunks k acc).full_response ∧
      (assembleGo stopF chunks k acc).wasAborted =
        (assembleSpecGo stopF chunks k acc).wasAborted ∧
      (assembleGo stopF chunks k acc).pulled ≤
        (assembleSpecGo stopF chunks k acc).pulled + 1 := by
  intro chunks
  induction chunks with
  | nil => intro k acc; simp [assembleGo, assembleSpecGo]
  | cons chunk rest ih =>
    intro k acc
    by_cases hs : stopF k
    · simp [assembleGo, assembleSpecGo, hs]
    · cases chunk with
      | none => simpa [assembleGo, assembleSpecGo, hs] using ih (k + 1) acc
      | some delta =>
        by_cases hd : delta == ""
        · simpa [assembleGo, assembleSpecGo, hs, hd] using ih (k + 1) acc
        · simpa [assembleGo, assembleSpecGo, hs, hd] using ih (k + 1) (acc ++ delta)

lemma assembleGo_noStop (stopF : Nat → Bool) (hF : ∀ k, stopF k = false) :
    ∀ (chunks : List (Option String)) (k : Nat) (acc : String),
      (assembleGo stopF chunks k acc).wasAborted = false := by
  intro chunks
  induction chunks with
  | nil => intro k acc; simp [assembleGo, hF]
  | cons chunk rest ih =>
    intro k acc
    cases chunk with
    | none => simp [assembleGo, hF, ih]
    | some delta =>
      by_cases hd : delta == "" <;> simp [assembleGo, hF, hd, ih]

lemma assemble_noStop (chunks : List (Option String)) (stopF : Nat → Bool)
    (hF : ∀ k, stopF k = false) : (assemble chunks stopF).wasAborted = false :=
  assembleGo_noStop stopF hF chunks 0 ""

lemma userTurn_count (s : SessionState) (p : String) (ev : TurnEvent) :
    (userTurn s p ev).1.user_message_count = s.user_message_count + 1 := by
  cases ev <;> simp only [userTurn] <;> split_ifs <;> simp [apply_ite]

lemma userTurn_setup (s : SessionState) (p : String) (ev : TurnEvent) :
    (userTurn s p ev).1.setup_complete = s.setup_complete := by
  cases ev <;> simp only [userTurn] <;> split_ifs <;> simp [apply_ite]

lemma userTurn_feedback_shown (s : SessionState) (p : String) (ev : TurnEvent) :
    (userTurn s p ev).1.feedback_shown = s.feedback_shown := by
  cases ev <;> simp only [userTurn] <;> split_ifs <;> simp [apply_ite]

lemma userTurn_messages_streamed (s : SessionState) (p : String)
    (chunks : List (Option String)) (stopF : Nat → Bool) (streamRaises : Bool)
    (h4 : s.user_message_count < 4) :
    (userTurn s p (TurnEvent.streamed chunks stopF streamRaises)).1.messages =
      s.messages ++
        [userMsg p, ⟨"assistant", (assemble chunks stopF).full_response⟩] := by
  simp only [userTurn]; split_ifs <;> simp [h4, apply_ite]

lemma userTurn_messages_createFailed (s : SessionState) (p : String) :
    (userTurn s p TurnEvent.createFailed).1.messages = s.messages ++ [userMsg p] := by
  simp only [userTurn]; split_ifs <;> simp [apply_ite]

lemma userTurn_messages_noReply (s : SessionState) (p : String) (ev : TurnEvent)
    (h4 : 4 ≤ s.user_message_count) :
    (userTurn s p ev).1.messages = s.messages ++ [userMsg p] := by
  cases ev <;> simp only [userTurn] <;> split_ifs <;> simp [apply_ite] <;> omega

lemma userTurn_stop_of (s : SessionState) (p : String) (ev : TurnEvent)
    (h : s.stop_requested = true) :
    (userTurn s p ev).1.stop_requested = true := by
  cases ev <;> simp only [userTurn] <;> split_ifs <;> simp [h, apply_ite]

lemma userTurn_early_of (s : SessionState) (p : String) (ev : TurnEvent)
    (h : s.stopped_early = true) :
    (userTurn s p ev).1.stopped_early = true := by
  cases ev <;> simp only [userTurn] <;> split_ifs <;> simp [h, apply_ite]

lemma userTurn_noStop_stop (s : SessionState) (p : String) (ev : TurnEvent)
    (hev : noStopEvent ev) :
    (userTurn s p ev).1.stop_requested = s.stop_requested := by
  cases ev with
  | createFailed => simp only [userTurn]; split_ifs <;> simp [apply_ite]
  | streamed chunks stopF streamRaises =>
    have hab : (assemble chunks stopF).wasAborted = false :=
      assemble_noStop chunks stopF hev
    simp only [userTurn]; split_ifs <;> simp_all [apply_ite]

lemma userTurn_noStop_early (s : SessionState) (p : String) (ev : TurnEvent)
    (hev : noStopEvent ev) :
    (userTurn s p ev).1.stopped_early = s.stopped_early := by
  cases ev with
  | createFailed => simp only [userTurn]; split_ifs <;> simp [apply_ite]
  | streamed chunks stopF streamRaises =>
    have hab : (assemble chunks stopF).wasAborted = false :=
      assemble_noStop chunks stopF hev
    simp only [userTurn]; split_ifs <;> simp_all [apply_ite]

lemma userTurn_noStop_chat_complete (s : SessionState) (p : String) (ev : TurnEvent)
    (hev : noStopEvent ev) (hstop : s.stop_requested = false) :
    (userTurn s p ev).1.chat_complete =
      (if 5 ≤ s.user_message_count + 1 then true else s.chat_complete) := by
  cases ev with
  | createFailed => simp only [userTurn]; split_ifs <;> simp_all [apply_ite]
  | streamed chunks stopF streamRaises =>
    have hab : (assemble chunks stopF).wasAborted = false :=
      assemble_noStop chunks stopF hev
    simp only [userTurn]; split_ifs <;> simp_all [apply_ite]

lemma feedbackScreen_fst (s : SessionState) (ok : Bool) :
    (feedbackScreen s ok).1 = s := by
  simp only [feedbackScreen]
  split_ifs <;> rfl

lemma joinLines_cons (a : String) (l : List String) :
    ∃ t, joinLines (a :: l) = a ++ t := by
  cases l with
  | nil => exact ⟨"", (String.append_empty a).symm⟩
  | cons b rest =>
    exact ⟨"\n" ++ joinLines (b :: rest), by
      simp [joinLines, String.append_assoc]⟩

lemma userTurn_messages_extend (s : SessionState) (p : String) (ev : TurnEvent) :
    ∃ extra, (userTurn s p ev).1.messages = s.messages ++ extra ∧
      ∀ m ∈ extra, m.role = "user" ∨ m.role = "assistant" := by
  by_cases h4 : s.user_message_count < 4
  · cases ev with
    | createFailed =>
      exact ⟨[userMsg p], userTurn_messages_createFailed s p, by simp [userMsg]⟩
    | streamed chunks stopF streamRaises =>
      refine ⟨[userMsg p, ⟨"assistant", (assemble chunks stopF).full_response⟩],
        userTurn_messages_streamed s p chunks stopF streamRaises h4, ?_⟩
      simp [userMsg]
  · exact ⟨[userMsg p], userTurn_messages_noReply s p ev (by omega), by simp [userMsg]⟩

/-- The transcript shape invariant: empty, or a system message first and
nowhere else. -/
def sysFirst (s : SessionState) : Prop :=
  s.messages = [] ∨
    ∃ m rest, s.messages = m :: rest ∧ m.role = "system" ∧
      ∀ m2 ∈ rest, m2.role ≠ "system"

lemma step_sysFirst {s t : SessionState} (hst : Step s t) (h : sysFirst s) :
    sysFirst t := by
  cases hst with
  | setup h0 => exact h
  | stop => exact h
  | getFeedback h0 => exact h
  | feedbackRun ok h0 => rw [feedbackScreen_fst]; exact h
  | enterInterview h0 =>
    unfold initMessages
    by_cases hm : s.messages == []
    · simp only [hm, if_true]
      right
      exact ⟨_, [], rfl, rfl, by simp⟩
    · simpa [hm] using h
  | turn prompt ev h1 h2 h3 h4 =>
    obtain ⟨extra, hext, hroles⟩ := userTurn_messages_extend s prompt ev
    rcases h with h | ⟨m, rest, hmsg, hrole, hrest⟩
    · exact absurd h h4
    · right
      refine ⟨m, rest ++ extra, by rw [hext, hmsg]; simp, hrole, ?_⟩
      intro m2 hm2
      rcases List.mem_append.mp hm2 with hm2 | hm2
      · exact hrest m2 hm2
      · rcases hroles m2 hm2 with h | h <;> simp [h]

lemma reach_sysFirst {s t : SessionState} (h : Reach s t) (h0 : sysFirst s) :
    sysFirst t := by
  induction h with
  | refl => exact h0
  | tail t u hr hstep ih => exact step_sysFirst hstep ih

lemma step_stop_mono {s t : SessionState} (hst : Step s t)
    (h : s.stop_requested = true) : t.stop_requested = true := by
  cases hst with
  | setup h0 => exact h
  | stop => rfl
  | getFeedback h0 => exact h
  | feedbackRun ok h0 => rw [feedbackScreen_fst]; exact h
  | enterInterview h0 => unfold initMessages; split_ifs <;> exact h
  | turn prompt ev h1 h2 h3 h4 => simp [inputGate, h] at h2

lemma step_early_mono {s t : SessionState} (hst : Step s t)
    (h : s.stopped_early = true) : t.stopped_early = true := by
  cases hst with
  | setup h0 => exact h
  | stop => simp [request_stop, h]
  | getFeedback h0 => exact h
  | feedbackRun ok h0 => rw [feedbackScreen_fst]; exact h
  | enterInterview h0 => unfold initMessages; split_ifs <;> exact h
  | turn prompt ev h1 h2 h3 h4 => exact userTurn_early_of s prompt ev h

lemma step_early_stays_false {s t : SessionState} (hst : Step s t)
    (h : s.stop_requested = true ∧ s.stopped_early = false ∧
      1 ≤ s.user_message_count) :
    t.stop_requested = true ∧ t.stopped_early = false ∧
      1 ≤ t.user_message_count := by
  obtain ⟨hs, he, hc⟩ := h
  cases hst with
  | setup h0 => exact ⟨hs, he, hc⟩
  | stop =>
    refine ⟨rfl, ?_, hc⟩
    have : (s.user_message_count == 0) = false := by
      simp only [beq_eq_false_iff_ne]; omega
    simp [request_stop, this, he]
  | getFeedback h0 => exact ⟨hs, he, hc⟩
  | feedbackRun ok h0 => rw [feedbackScreen_fst]; exact ⟨hs, he, hc⟩
  | enterInterview h0 =>
    unfold initMessages; split_ifs <;> exact ⟨hs, he, hc⟩
  | turn prompt ev h1 h2 h3 h4 => simp [inputGate, hs] at h2

lemma reach_stop_mono {s t : SessionState} (h : Reach s t)
    (h0 : s.stop_requested = true) : t.stop_requested = true := by
  induction h with
  | refl => exact h0
  | tail t u hr hstep ih => exact step_stop_mono hstep ih

lemma reach_early_mono {s t : SessionState} (h : Reach s t)
    (h0 : s.stopped_early = true) : t.stopped_early = true := by
  induction h with
  | refl => exact h0
  | tail t u hr hstep ih => exact step_early_mono hstep ih

lemma reach_early_stays_false {s t : SessionState} (h : Reach s t)
    (h0 : s.stop_requested = true ∧ s.stopped_early = false ∧
      1 ≤ s.user_message_count) :
    t.stopped_early = false := by
  have key : t.stop_requested = true ∧ t.stopped_early = false ∧
      1 ≤ t.user_message_count := by
    induction h with
    | refl => exact h0
    | tail t u hr hstep ih => exact step_early_stays_false hstep ih
  exact key.2.1

lemma runTurns_noStop :
    ∀ (turns : List (String × TurnEvent)) (s : SessionState),
      s.setup_complete = true → s.feedback_shown = false →
      s.chat_complete = false → s.stop_requested = false →
      s.stopped_early = false →
      s.user_message_count + turns.length ≤ 5 → s.user_message_count < 5 →
      (∀ t ∈ turns, noStopEvent t.2 ∧ t.1 ≠ "") →
      allAccepted s turns = true ∧
      (runTurns s turns).user_message_count =
        s.user_message_count + turns.length ∧
      (runTurns s turns).setup_complete = true ∧
      (runTurns s turns).feedback_shown = false ∧
      (runTurns s turns).stop_requested = false ∧
      (runTurns s turns).stopped_early = false ∧
      (runTurns s turns).chat_complete =
        decide (s.user_message_count + turns.length = 5) := by
  intro turns
  induction turns with
  | nil =>
    intro s h1 h2 h3 h4 h5 h6 h7 h8
    refine ⟨rfl, by simp [runTurns], by simp [runTurns, h1], by simp [runTurns, h2],
      by simp [runTurns, h4], by simp [runTurns, h5], ?_⟩
    simp only [runTurns, List.length_nil, Nat.add_zero]
    rw [h3]
    symm
    simp only [decide_eq_false_iff_not]
    omega
  | cons pe rest ih =>
    intro s h1 h2 h3 h4 h5 h6 h7 h8
    obtain ⟨p, ev⟩ := pe
    have hev : noStopEvent ev := (h8 (p, ev) (List.mem_cons_self _ _)).1
    have hp : p ≠ "" := (h8 (p, ev) (List.mem_cons_self _ _)).2
    have hacc1 : interviewing s = true := by simp [interviewing, h1, h2, h3]
    have hacc2 : inputGate s = true := by simp [inputGate, h4, h7]
    set s' := (userTurn s p ev).1 with hs'
    have hc' : s'.user_message_count = s.user_message_count + 1 :=
      userTurn_count s p ev
    have hsetup' : s'.setup_complete = true := by
      rw [hs', userTurn_setup]; exact h1
    have hfb' : s'.feedback_shown = false := by
      rw [hs', userTurn_feedback_shown]; exact h2
    have hstop' : s'.stop_requested = false := by
      rw [hs', userTurn_noStop_stop s p ev hev]; exact h4
    have hearly' : s'.stopped_early = false := by
      rw [hs', userTurn_noStop_early s p ev hev]; exact h5
    have hcc' : s'.chat_complete =
        (if 5 ≤ s.user_message_count + 1 then true else s.chat_complete) :=
      userTurn_noStop_chat_complete s p ev hev h4
    have hlen : s.user_message_count + (rest.length + 1) ≤ 5 := by
      simpa using h6
    by_cases hfive : s.user_message_count + 1 < 5
    · have hcc'' : s'.chat_complete = false := by
        rw [hcc', h3]; simp; omega
      have hrec := ih s' hsetup' hfb' hcc'' hstop' hearly'
        (by rw [hc']; omega) (by omega)
        (fun t ht => h8 t (List.mem_cons_of_mem _ ht))
      refine ⟨?_, ?_, hrec.2.2.1, hrec.2.2.2.1, hrec.2.2.2.2.1,
        hrec.2.2.2.2.2.1, ?_⟩
      · simp only [allAccepted, hacc1, hacc2, Bool.true_and]
        rw [← hs']
        simp [hp, hrec.1]
      · simp only [runTurns, ← hs', List.length_cons]
        rw [hrec.2.1, hc']
        omega
      · simp only [runTurns, ← hs', List.length_cons]
        rw [hrec.2.2.2.2.2.2, hc']
        have harith : s.user_message_count + 1 + rest.length =
            s.user_message_count + (rest.length + 1) := by omega
        rw [harith]
    · have hcount5 : s.user_message_count + 1 = 5 := by omega
      have hrest : rest = [] := by
        have : rest.length = 0 := by omega
        exact List.length_eq_zero.mp this
      subst hrest
      have hcc'' : s'.chat_complete = true := by
        rw [hcc']; simp; omega
      refine ⟨?_, ?_, ?_⟩
      · simp only [allAccepted, hacc1, hacc2, Bool.true_and]
        simp [hp, allAccepted]
      · simp only [runTurns, ← hs', List.length_cons, List.length_nil]
        omega
      · refine ⟨hsetup', hfb', hstop', hearly', ?_⟩
        simp only [runTurns, ← hs']
        rw [hcc'']
        symm
        simp only [List.length_cons, List.length_nil]
        simp [hcount5]

/-- Claim C1, counterexample: with fragments `["Hel", "lo ", "world"]` and the
stop predicate becoming true after the 1st fragment, the loop pulls a 2nd
fragment (and discards it) before observing the stop — the claim's
"without pulling or discarding any further fragment" fails, since the
check-before-pull behaviour pulls only 1. -/
theorem C1_assembler_counterexample :
    (assemble exFrags exStop).full_response = "Hel" ∧
    (assemble exFrags exStop).wasAborted = true ∧
    (assemble exFrags exStop).pulled = 2 ∧
    ¬((assemble exFrags exStop).pulled ≤ (assembleSpec exFrags exStop).pulled) := by
  decide

/-- Claim C1 (amended): the assembler checks the stop flag only after pulling
each fragment, so on an abort it may pull and discard one further fragment;
but its accumulated text and wasAborted result agree with the
check-before-pull behaviour on every fragment sequence and stop predicate,
and the two spec examples hold: `["Hel", "lo ", "world"]` with the predicate
true after the 1st fragment yields `("Hel", true)`, and with the predicate
always false yields `("Hello world", false)`. -/
theorem C1_assembler_amended :
    (∀ (chunks : List (Option String)) (stopF : Nat → Bool),
      (assemble chunks stopF).full_response =
        (assembleSpec chunks stopF).full_response ∧
      (assemble chunks stopF).wasAborted = (assembleSpec chunks stopF).wasAborted ∧
      (assemble chunks stopF).pulled ≤ (assembleSpec chunks stopF).pulled + 1) ∧
    assemble exFrags exStop = ⟨"Hel", true, 2, false⟩ ∧
    assembleSpec exFrags exStop = ⟨"Hel", true, 1, false⟩ ∧
    assemble exFrags noStopF = ⟨"Hello world", false, 3, true⟩ := by
  refine ⟨fun chunks stopF => assembleGo_spec_eqv stopF chunks 0 "", ?_, ?_, ?_⟩ <;>
    decide

/-- Claim C2: the turn budget is a pure function of the user turn count:
`acceptsInput n` is true exactly for `n ≤ 4` and `generatesReply n` exactly
for `n ≤ 3`; the full input gate is the count conjunct plus the stop flag;
and a turn submitted at count 4 (the 5th accepted message) is stored without
any assistant reply. -/
theorem C2_turn_budget :
    (∀ n, n ≤ 4 → acceptsInput n = true) ∧
    (∀ n, 5 ≤ n → acceptsInput n = false) ∧
    (∀ n, n ≤ 3 → generatesReply n = true) ∧
    (∀ n, 4 ≤ n → generatesReply n = false) ∧
    (∀ s, inputGate s = (acceptsInput s.user_message_count && !s.stop_requested)) ∧
    (∀ s p ev, s.user_message_count = 4 →
      (userTurn s p ev).1.messages = s.messages ++ [userMsg p]) := by
  refine ⟨?_, ?_, ?_, ?_, fun s => rfl, ?_⟩
  · intro n h; simp [acceptsInput]; omega
  · intro n h; simp [acceptsInput]; omega
  · intro n h; simp [generatesReply]; omega
  · intro n h; simp [generatesReply]; omega
  · intro s p ev h; exact userTurn_messages_noReply s p ev (by omega)

/-- Witness for C2 at concrete counts and a concrete 5th turn. -/
theorem C2_turn_budget_witness :
    acceptsInput 4 = true ∧ acceptsInput 5 = false ∧
    generatesReply 3 = true ∧ generatesReply 4 = false ∧
    (userTurn s4W "final" TurnEvent.createFailed).1.messages =
      s4W.messages ++ [userMsg "final"] :=
  ⟨C2_turn_budget.1 4 (by decide), C2_turn_budget.2.1 5 (by decide),
   C2_turn_budget.2.2.1 3 (by decide), C2_turn_budget.2.2.2.1 4 (by decide),
   C2_turn_budget.2.2.2.2.2 s4W "final" TurnEvent.createFailed (by decide)⟩

/-- Claim C9: the ESC-key stop path performs exactly the same session-state
mutation as `request_stop` — it sets the stop flag, sets `stopped_early`
exactly when no user message has been accepted, and marks the chat
complete. -/
theorem C9_esc_equivalence :
    ∀ s : SessionState, escStop s = request_stop s ∧
      (escStop s).stop_requested = true ∧
      (escStop s).chat_complete = true ∧
      (escStop s).stopped_early =
        (if s.user_message_count == 0 then true else s.stopped_early) :=
  fun _ => ⟨rfl, rfl, rfl, rfl⟩

/-- Claim C3: `request_stop` is idempotent; it always sets the stop flag;
starting from an unset `stopped_early` the call sets it exactly when the
turn count is zero; and along every session evolution both flags are
monotonic — once true they stay true, and `stopped_early` stays false
forever after a stop taken with at least one accepted turn. -/
theorem C3_request_stop :
    (∀ s, request_stop (request_stop s) = request_stop s) ∧
    (∀ s, (request_stop s).stop_requested = true) ∧
    (∀ s, s.stopped_early = false →
      ((request_stop s).stopped_early = true ↔ s.user_message_count = 0)) ∧
    (∀ s t, Reach s t → s.stop_requested = true → t.stop_requested = true) ∧
    (∀ s t, Reach s t → s.stopped_early = true → t.stopped_early = true) ∧
    (∀ s t, Reach s t → s.stop_requested = true → s.stopped_early = false →
      1 ≤ s.user_message_count → t.stopped_early = false) := by
  refine ⟨?_, fun s => rfl, ?_, ?_, ?_, ?_⟩
  · intro s
    simp only [request_stop]
    by_cases h : s.user_message_count == 0 <;> simp [h]
  · intro s h
    simp only [request_stop]
    by_cases h0 : s.user_message_count == 0
    · have heq : s.user_message_count = 0 := by simpa using h0
      simp [h0, heq]
    · have hne : s.user_message_count ≠ 0 := by
        intro hc
        rw [hc] at h0
        exact h0 rfl
      simp only [Bool.not_eq_true] at h0
      simp [h0, h, hne]
  · intro s t hr h; exact reach_stop_mono hr h
  · intro s t hr h; exact reach_early_mono hr h
  · intro s t hr h1 h2 h3; exact reach_early_stays_false hr ⟨h1, h2, h3⟩

/-- Witness for C3 at a concrete 2-turn stopped session and a fresh one. -/
theorem C3_request_stop_witness :
    request_stop (request_stop sStopW) = request_stop sStopW ∧
    (request_stop sStopW).stop_requested = true ∧
    ((request_stop st0).stopped_early = true ↔ st0.user_message_count = 0) ∧
    (request_stop sStopW).stopped_early = false :=
  ⟨C3_request_stop.1 sStopW,
   C3_request_stop.2.1 sStopW,
   C3_request_stop.2.2.1 st0 (by decide),
   C3_request_stop.2.2.2.2.2 sStopW (request_stop sStopW)
     (Reach.tail _ _ _ (Reach.refl sStopW) (Step.stop sStopW))
     (by decide) (by decide) (by decide)⟩

/-- Claim C4: every accepted user turn increments the turn count by exactly
one — with or without a reply attempt, aborted or failed — and whenever a
stream was obtained, exactly the accumulated text (possibly empty or
partial) is appended as that turn's assistant message; the 5th turn stores
the user message alone. -/
theorem C4_turn_accounting :
    (∀ s p ev, (userTurn s p ev).1.user_message_count =
      s.user_message_count + 1) ∧
    (∀ s p chunks stopF streamRaises, s.user_message_count < 4 →
      (userTurn s p (TurnEvent.streamed chunks stopF streamRaises)).1.messages =
        s.messages ++
          [userMsg p, ⟨"assistant", (assemble chunks stopF).full_response⟩]) ∧
    (∀ s p ev, 4 ≤ s.user_message_count →
      (userTurn s p ev).1.messages = s.messages ++ [userMsg p]) :=
  ⟨userTurn_count,
   fun s p chunks stopF streamRaises h =>
     userTurn_messages_streamed s p chunks stopF streamRaises h,
   userTurn_messages_noReply⟩

/-- Witness for C4: a concrete aborted stream keeps the partial text "Hel",
and a concrete 5th turn stores only the user message. -/
theorem C4_turn_accounting_witness :
    (userTurn st0 "hi" (TurnEvent.streamed exFrags exStop false)).1.user_message_count = 1 ∧
    (userTurn st0 "hi" (TurnEvent.streamed exFrags exStop false)).1.messages =
      st0.messages ++ [userMsg "hi", ⟨"assistant", "Hel"⟩] ∧
    (userTurn s4W "bye" TurnEvent.createFailed).1.messages =
      s4W.messages ++ [userMsg "bye"] := by
  refine ⟨C4_turn_accounting.1 st0 "hi" _, ?_,
    C4_turn_accounting.2.2 s4W "bye" TurnEvent.createFailed (by decide)⟩
  rw [C4_turn_accounting.2.1 st0 "hi" exFrags exStop false (by decide)]
  rfl

/-- Claim C5: from a fresh interviewing state, 5 accepted no-stop user turns
are all accepted and leave the session in phase Completed with a turn count
of 5; and a stop requested with at least one accepted turn (and no earlier
early-stop) also drives the phase to Completed — not Stopped-early — making
feedback eligible. -/
theorem C5_completion :
    (∀ (s : SessionState) (turns : List (String × TurnEvent)),
      s.setup_complete = true → s.feedback_shown = false →
      s.chat_complete = false → s.stop_requested = false →
      s.stopped_early = false → s.user_message_count = 0 →
      turns.length = 5 →
      (∀ t ∈ turns, noStopEvent t.2 ∧ t.1 ≠ "") →
      allAccepted s turns = true ∧
      (runTurns s turns).user_message_count = 5 ∧
      phase (runTurns s turns) = Phase.Completed) ∧
    (∀ s : SessionState, s.setup_complete = true → s.feedback_shown = false →
      s.stopped_early = false → 1 ≤ s.user_message_count →
      phase (request_stop s) = Phase.Completed ∧
      feedbackEligible (request_stop s) = true) := by
  constructor
  · intro s turns h1 h2 h3 h4 h5 h0 hlen hts
    have hrun := runTurns_noStop turns s h1 h2 h3 h4 h5 (by omega) (by omega) hts
    refine ⟨hrun.1, by rw [hrun.2.1, h0, hlen], ?_⟩
    have hcc : (runTurns s turns).chat_complete = true := by
      rw [hrun.2.2.2.2.2.2, h0, hlen]
      simp
    simp [phase, hrun.2.2.1, hrun.2.2.2.1, hcc, hrun.2.2.2.2.2.1]
  · intro s h1 h2 h3 hc
    have h0 : (s.user_message_count == 0) = false := by
      simp only [beq_eq_false_iff_ne]
      omega
    constructor
    · simp [phase, request_stop, h1, h2, h0, h3]
    · simp only [feedbackEligible, request_stop]
      simp [h2, h0, h3]
      omega

/-- Witness for C5: a concrete 5-turn run from the fresh post-setup state,
and a concrete stop taken 2 turns in. -/
theorem C5_completion_witness :
    allAccepted st0 turnsW = true ∧
    (runTurns st0 turnsW).user_message_count = 5 ∧
    phase (runTurns st0 turnsW) = Phase.Completed ∧
    phase (request_stop sStopW) = Phase.Completed ∧
    feedbackEligible (request_stop sStopW) = true := by
  have hts : ∀ t ∈ turnsW, noStopEvent t.2 ∧ t.1 ≠ "" := by
    intro t ht
    simp only [turnsW, List.mem_cons, List.not_mem_nil, or_false] at ht
    rcases ht with h | h | h | h | h <;> subst h <;>
      first
      | exact ⟨trivial, by decide⟩
      | exact ⟨fun k => rfl, by decide⟩
  have h1 := C5_completion.1 st0 turnsW (by decide) (by decide) (by decide)
    (by decide) (by decide) (by decide) (by decide) hts
  have h2 := C5_completion.2 sStopW (by decide) (by decide) (by decide) (by decide)
  exact ⟨h1.1, h1.2.1, h1.2.2, h2.1, h2.2⟩

/-- Claim C6: a stop requested while the turn count is zero puts the session
in the Stopped-early phase; `stopped_early` then holds in every reachable
later state, every subsequent feedback-screen pass is refused by the guard
without issuing any scoring call or changing state, and the Get-Feedback
gate stays closed. -/
theorem C6_early_stop_lockout :
    (∀ s : SessionState, interviewing s = true → s.user_message_count = 0 →
      phase (request_stop s) = Phase.StoppedEarly) ∧
    (∀ s t : SessionState, Reach s t → s.stopped_early = true →
      t.stopped_early = true) ∧
    (∀ (t : SessionState) (ok : Bool), t.stopped_early = true →
      (feedbackScreen t ok).2 = [FeedbackEffect.refusedEarlyGuard] ∧
      (feedbackScreen t ok).1 = t ∧
      ∀ sp up, FeedbackEffect.scoringCall sp up ∉ (feedbackScreen t ok).2) ∧
    (∀ t : SessionState, t.stopped_early = true → feedbackEligible t = false) := by
  refine ⟨?_, ?_, ?_, ?_⟩
  · intro s hint h0
    simp only [interviewing, Bool.and_eq_true, Bool.not_eq_true'] at hint
    simp [phase, request_stop, hint.1.1, hint.1.2, h0]
  · intro s t hr h; exact reach_early_mono hr h
  · intro t ok h
    refine ⟨by simp [feedbackScreen, h], feedbackScreen_fst t ok, ?_⟩
    intro sp up
    simp [feedbackScreen, h]
  · intro t h; simp [feedbackEligible, h]

/-- Witness for C6 at the fresh post-setup state stopped before any turn. -/
theorem C6_early_stop_lockout_witness :
    phase (request_stop st0) = Phase.StoppedEarly ∧
    (request_stop st0).stopped_early = true ∧
    (feedbackScreen (request_stop st0) true).2 =
      [FeedbackEffect.refusedEarlyGuard] ∧
    (feedbackScreen (request_stop st0) true).1 = request_stop st0 ∧
    feedbackEligible (request_stop st0) = false := by
  have h1 := C6_early_stop_lockout.1 st0 (by decide) (by decide)
  have h2 := C6_early_stop_lockout.2.1 (request_stop st0) (request_stop st0)
    (Reach.refl _) (by decide)
  have h3 := C6_early_stop_lockout.2.2.1 (request_stop st0) true (by decide)
  have h4 := C6_early_stop_lockout.2.2.2 (request_stop st0) (by decide)
  exact ⟨h1, h2, h3.1, h3.2.1, h4⟩

/-- Claim C7: when the scoring call fails on an eligible feedback pass, the
session state is unchanged (no side effects), the phase does not advance,
the error is surfaced as a notice, and the single scoring call was made —
so re-rendering the same screen retries the same action. -/
theorem C7_feedback_failure :
    ∀ s : SessionState, s.stopped_early = false → s.user_message_count ≠ 0 →
      (feedbackScreen s false).1 = s ∧
      phase (feedbackScreen s false).1 = phase s ∧
      FeedbackEffect.feedbackError ∈ (feedbackScreen s false).2 ∧
      FeedbackEffect.scoringCall feedbackSystemPrompt
        (feedbackUserPrefix ++ renderTranscript s.messages) ∈
          (feedbackScreen s false).2 := by
  intro s h1 h2
  have h0 : (s.user_message_count == 0) = false := by
    simp only [beq_eq_false_iff_ne]
    exact h2
  refine ⟨feedbackScreen_fst s false, by rw [feedbackScreen_fst], ?_, ?_⟩ <;>
    simp [feedbackScreen, h1, h0]

/-- Witness for C7 at a concrete eligible 1-turn session. -/
theorem C7_feedback_failure_witness :
    (feedbackScreen sFbW false).1 = sFbW ∧
    phase (feedbackScreen sFbW false).1 = phase sFbW ∧
    FeedbackEffect.feedbackError ∈ (feedbackScreen sFbW false).2 ∧
    FeedbackEffect.scoringCall feedbackSystemPrompt
      (feedbackUserPrefix ++ renderTranscript sFbW.messages) ∈
        (feedbackScreen sFbW false).2 :=
  C7_feedback_failure sFbW (by decide) (by decide)

/-- Claim C8: in every reachable non-empty transcript the single system
message is first and the rendering (role-colon-content lines joined by
newline) begins with its line; an eligible feedback pass issues exactly one
scoring call, whose user prompt ends with the full rendering, and offers the
download under the fixed filename `interview_transcript.txt` with exactly
the rendering as data. -/
theorem C8_transcript_rendering :
    (∀ s : SessionState, Reach initialState s → s.messages ≠ [] →
      ∃ m rest, s.messages = m :: rest ∧ m.role = "system" ∧
        (∀ m2 ∈ rest, m2.role ≠ "system") ∧
        ∃ t, renderTranscript s.messages = (m.role ++ ": " ++ m.content) ++ t) ∧
    (∀ (s : SessionState) (ok : Bool), s.stopped_early = false →
      s.user_message_count ≠ 0 →
      ((feedbackScreen s ok).2.filter isScoringCall) =
        [FeedbackEffect.scoringCall feedbackSystemPrompt
          (feedbackUserPrefix ++ renderTranscript s.messages)] ∧
      FeedbackEffect.downloadOffered "interview_transcript.txt"
        (renderTranscript s.messages) ∈ (feedbackScreen s ok).2) := by
  constructor
  · intro s hr hne
    have hsys : sysFirst s := reach_sysFirst hr (Or.inl rfl)
    rcases hsys with h | ⟨m, rest, hmsg, hrole, hrest⟩
    · exact absurd h hne
    · refine ⟨m, rest, hmsg, hrole, hrest, ?_⟩
      rw [hmsg]
      simp only [renderTranscript, List.map_cons]
      exact joinLines_cons _ _
  · intro s ok h1 h2
    have h0 : (s.user_message_count == 0) = false := by
      simp only [beq_eq_false_iff_ne]
      exact h2
    cases ok <;> simp [feedbackScreen, h1, h0, isScoringCall]

/-- Witness for C8: concrete reachability of the fresh post-setup state and a
concrete eligible feedback pass. -/
theorem C8_transcript_rendering_witness :
    (∃ m rest, st0.messages = m :: rest ∧ m.role = "system" ∧
      (∀ m2 ∈ rest, m2.role ≠ "system") ∧
      ∃ t, renderTranscript st0.messages = (m.role ++ ": " ++ m.content) ++ t) ∧
    ((feedbackScreen sFbW true).2.filter isScoringCall) =
      [FeedbackEffect.scoringCall feedbackSystemPrompt
        (feedbackUserPrefix ++ renderTranscript sFbW.messages)] ∧
    FeedbackEffect.downloadOffered "interview_transcript.txt"
      (renderTranscript sFbW.messages) ∈ (feedbackScreen sFbW true).2 := by
  have hreach : Reach initialState st0 :=
    Reach.tail _ _ _
      (Reach.tail _ _ _ (Reach.refl initialState)
        (Step.setup initialState (by decide)))
      (Step.enterInterview (complete_setup initialState) (by decide))
  have h1 := C8_transcript_rendering.1 st0 hreach (by decide)
  have h2 := C8_transcript_rendering.2 sFbW true (by decide) (by decide)
  exact ⟨h1, h2.1, h2.2⟩

/-- Claim C10: if stream creation itself fails before any fragment arrives,
the transcript gains only the user message — no assistant message — the
error is surfaced as a notice, the turn count still increments, and the
session stays in the Interviewing phase. -/
theorem C10_create_failure :
    ∀ (s : SessionState) (p : String), s.user_message_count < 4 →
      (userTurn s p TurnEvent.createFailed).1.messages =
        s.messages ++ [userMsg p] ∧
      (userTurn s p TurnEvent.createFailed).2 = [Notice.responseFailed] ∧
      (userTurn s p TurnEvent.createFailed).1.user_message_count =
        s.user_message_count + 1 ∧
      (interviewing s = true → s.stop_requested = false →
        interviewing (userTurn s p TurnEvent.createFailed).1 = true) := by
  intro s p h4
  refine ⟨userTurn_messages_createFailed s p, ?_, userTurn_count s p _, ?_⟩
  · simp [userTurn, h4]
  · intro hint hstop
    have hcc := userTurn_noStop_chat_complete s p TurnEvent.createFailed trivial hstop
    have hcc' : (userTurn s p TurnEvent.createFailed).1.chat_complete =
        s.chat_complete := by
      rw [hcc]
      simp
      omega
    simp only [interviewing, Bool.and_eq_true] at hint ⊢
    rw [userTurn_setup, userTurn_feedback_shown, hcc']
    exact hint

/-- Witness for C10 at the fresh post-setup state. -/
theorem C10_create_failure_witness :
    (userTurn st0 "hi" TurnEvent.createFailed).1.messages =
      st0.messages ++ [userMsg "hi"] ∧
    (userTurn st0 "hi" TurnEvent.createFailed).2 = [Notice.responseFailed] ∧
    (userTurn st0 "hi" TurnEvent.createFailed).1.user_message_count = 1 ∧
    interviewing (userTurn st0 "hi" TurnEvent.createFailed).1 = true := by
  have h := C10_create_failure st0 "hi" (by decide)
  exact ⟨h.1, h.2.1, h.2.2.1, h.2.2.2 (by decide) (by decide)⟩
